import Mathlib

/-
Shallow embedding of haltarr's src/app.py.

The program polls media servers (Jellyfin, Plex, Emby) for active playback
sessions, aggregates the per-server signals, and on activity edges pauses or
resumes download backends (SABnzbd, Deluge, qBittorrent), notifying Discord.

External I/O (HTTP requests, client library calls) is modelled by passing the
outcome of each call as an `Except String _` argument: `Except.ok v` is a
successful call returning `v`, `Except.error e` is the call raising an
exception with message `e`.
-/

/-- Intent emitted on an activity edge: `Pause` on Idle-to-Busy (the code calls
`download_manager.pause_downloads()`), `Resume` on Busy-to-Idle (the code calls
`download_manager.resume_downloads()`). -/
inductive Intent : Type
  | Pause : Intent
  | Resume : Intent
deriving DecidableEq, Repr

/-- Decision logic of `MediaServerManager.check_and_notify` (app.py lines
284-295): given the stored `has_already_activity` flag and the freshly
aggregated `current` reading, return the new stored flag and the intent acted
on (the state assignment happens before the `pause_downloads` /
`resume_downloads` call in the source, so the returned state is what the field
holds when the effect runs). -/
def check_and_notify_step (has_already_activity current : Bool) : Bool × Option Intent :=
  let is_activity_just_started := current && !has_already_activity
  let is_activity_just_stopped := !current && has_already_activity
  if is_activity_just_started then (true, some Intent.Pause)
  else if is_activity_just_stopped then (false, some Intent.Resume)
  else (has_already_activity, none)

/-- Initial value of `MediaServerManager.has_already_activity`, set in
`MediaServerManager.__init__` (app.py line 252). -/
def MediaServerManager.init_has_already_activity : Bool := false

/-- Aggregation loop of `MediaServerManager.has_active_sessions` (app.py lines
278-282): walk the registered media servers in order, query each one's
`has_active_sessions()` (here `signal`), and return `True` at the first active
one; `False` if none is active. -/
def MediaServerManager.has_active_sessions {α : Type} (signal : α → Bool) : List α → Bool
  | [] => false
  | server :: rest =>
    if signal server then true else MediaServerManager.has_active_sessions signal rest

/-- Instrumented variant of the same loop counting how many servers are
queried before it returns: each loop iteration queries exactly one server,
and the loop returns as soon as one reports activity. -/
def MediaServerManager.queried_count {α : Type} (signal : α → Bool) : List α → Nat
  | [] => 0
  | server :: rest =>
    if signal server then 1 else MediaServerManager.queried_count signal rest + 1

/-- Arbiter run over a sequence of evaluation cycles, each cycle being the
list of per-probe boolean readings for that cycle: aggregate the readings as
`MediaServerManager.has_active_sessions` does, apply the
`check_and_notify` decision, collect the emitted intents. -/
def runArbiter (state : Bool) : List (List Bool) → List Intent
  | [] => []
  | readings :: rest =>
    match check_and_notify_step state (MediaServerManager.has_active_sessions id readings) with
    | (s, some i) => i :: runArbiter s rest
    | (s, none) => runArbiter s rest

/-- Number of occurrences of intent `i` in a trace. -/
def countIntent (i : Intent) : List Intent → Nat
  | [] => 0
  | j :: rest => (if j = i then 1 else 0) + countIntent i rest

/-- Number of Idle-to-Busy transitions of a boolean signal, starting from
`prev`. -/
def risingEdges (prev : Bool) : List Bool → Nat
  | [] => 0
  | c :: rest => (if c && !prev then 1 else 0) + risingEdges c rest

/-- Number of Busy-to-Idle transitions of a boolean signal, starting from
`prev`. -/
def fallingEdges (prev : Bool) : List Bool → Nat
  | [] => 0
  | c :: rest => (if !c && prev then 1 else 0) + fallingEdges c rest

/- ---------------- Media-server probes ---------------- -/

/-- One entry of the JSON list returned by Jellyfin's `/Sessions` endpoint, as
used by `JellyfinMediaServer.has_active_sessions` (app.py lines 205-212):
only the `IsActive` flag decides the boolean; `UserName` and `Id` are used in
the log line. -/
structure JellySession : Type where
  IsActive : Bool
  UserName : String
  Id : String
deriving DecidableEq, Repr

/-- Model of `JellyfinMediaServer._fetch_sessions` (app.py lines 195-203):
a `requests.RequestException` (connection error, timeout, non-2xx via
`raise_for_status`) is caught, logged, and an empty list returned. -/
def JellyfinMediaServer.fetch_sessions
    (response : Except String (List JellySession)) : List JellySession :=
  match response with
  | Except.ok sessions => sessions
  | Except.error _ => []

/-- Loop body of `JellyfinMediaServer.has_active_sessions`: return `True` at
the first session whose `IsActive` is truthy; otherwise `False`. -/
def JellyfinMediaServer.any_active : List JellySession → Bool
  | [] => false
  | session :: rest =>
    if session.IsActive then true else JellyfinMediaServer.any_active rest

/-- `JellyfinMediaServer.has_active_sessions` (app.py lines 205-212). -/
def JellyfinMediaServer.has_active_sessions
    (response : Except String (List JellySession)) : Bool :=
  JellyfinMediaServer.any_active (JellyfinMediaServer.fetch_sessions response)

/-- JSON shape consumed by `PlexMediaServer.has_active_sessions` (app.py lines
220-230): `json.get("MediaContainer", {}).get("size", 0)`. -/
structure PlexMediaContainer : Type where
  size : Option Int
deriving DecidableEq, Repr

/-- Top-level Plex sessions-status JSON object. -/
structure PlexJson : Type where
  MediaContainer : Option PlexMediaContainer
deriving DecidableEq, Repr

/-- `PlexMediaServer.has_active_sessions` (app.py lines 220-230): on a
successful response, `total_active_sessions > 0` with missing keys defaulting
to 0; a `requests.RequestException` is caught and `False` returned. -/
def PlexMediaServer.has_active_sessions (response : Except String PlexJson) : Bool :=
  match response with
  | Except.ok json =>
    let total_active_sessions := (json.MediaContainer.map (fun mc => mc.size.getD 0)).getD 0
    decide (total_active_sessions > 0)
  | Except.error _ => false

/-- One entry of the JSON list returned by Emby's `/Sessions` endpoint; only
the list length is inspected. -/
structure EmbySession : Type where
deriving DecidableEq, Repr

/-- `EmbyMediaServer.has_active_sessions` (app.py lines 238-246): on success,
`len(response.json()) > 0`; a `requests.RequestException` is caught and
`False` returned. -/
def EmbyMediaServer.has_active_sessions
    (response : Except String (List EmbySession)) : Bool :=
  match response with
  | Except.ok sessions => decide (sessions.length > 0)
  | Except.error _ => false

/-- A configured probe together with the outcome of its HTTP query in the
current cycle. -/
inductive ProbeOutcome : Type
  | jellyfin (response : Except String (List JellySession)) : ProbeOutcome
  | plex (response : Except String PlexJson) : ProbeOutcome
  | emby (response : Except String (List EmbySession)) : ProbeOutcome
deriving Repr

/-- Dispatch of `media_server.has_active_sessions()` for each server kind. -/
def ProbeOutcome.signal : ProbeOutcome → Bool
  | ProbeOutcome.jellyfin r => JellyfinMediaServer.has_active_sessions r
  | ProbeOutcome.plex r => PlexMediaServer.has_active_sessions r
  | ProbeOutcome.emby r => EmbyMediaServer.has_active_sessions r

/-- Whether the probe's query raised. -/
def ProbeOutcome.isError : ProbeOutcome → Bool
  | ProbeOutcome.jellyfin (Except.error _) => true
  | ProbeOutcome.jellyfin (Except.ok _) => false
  | ProbeOutcome.plex (Except.error _) => true
  | ProbeOutcome.plex (Except.ok _) => false
  | ProbeOutcome.emby (Except.error _) => true
  | ProbeOutcome.emby (Except.ok _) => false

/- ---------------- Notifier ---------------- -/

/-- `DiscordNotifier.send_message` (app.py lines 28-48). `webhook_url` is the
constructor argument (`None` when the environment variable is unset; the
Python check `if not self.webhook_url` is falsy for both `None` and the empty
string) and `post_response` is the outcome of `requests.post`: an exception,
or a status code. The function raises (`Except.error`) when the URL is unset,
when the POST raises, or when the status code is not 204. -/
def DiscordNotifier.send_message (webhook_url : Option String)
    (post_response : Except String Nat) (_title _message : String) : Except String Unit :=
  if webhook_url.getD "" = "" then
    Except.error "Discord Webhook URL is not set."
  else
    match post_response with
    | Except.error e => Except.error e
    | Except.ok status_code =>
      if status_code = 204 then Except.ok ()
      else Except.error ("Failed to send message to Discord: " ++ toString status_code)

/- ---------------- Download backends ---------------- -/

/-- `SABnzbdService._call_api` (app.py lines 70-83): the whole body is inside
`try/except requests.RequestException`, and a non-200 status is only logged,
so the call never raises regardless of the HTTP outcome. Covers both
`SABnzbdService.pause` and `SABnzbdService.resume`, which only differ in the
`mode` parameter. -/
def SABnzbdService.call_api (response : Except String Nat) : Except String Unit :=
  match response with
  | Except.ok _status_code => Except.ok ()
  | Except.error _e => Except.ok ()

/-- `DelugeService.get_all_torrent_ids` (app.py lines 128-134; the later
definition shadows the earlier one): a `DelugeWebClientError` is caught,
logged, and an empty list returned. -/
def DelugeService.get_all_torrent_ids
    (torrents_status : Except String (List String)) : List String :=
  match torrents_status with
  | Except.ok ids => ids
  | Except.error _ => []

/-- `DelugeService.pause` / `DelugeService.resume` (app.py lines 136-158):
fetch the torrent ids, and when the list is non-empty perform the bulk
pause/resume call, whose `DelugeWebClientError` is caught and logged; the
method never raises. `action_call` is the outcome of
`pause_torrents`/`resume_torrents`. -/
def DelugeService.act (torrents_status : Except String (List String))
    (action_call : Except String Unit) : Except String Unit :=
  let torrent_ids := DelugeService.get_all_torrent_ids torrents_status
  if torrent_ids.isEmpty then Except.ok ()
  else
    match action_call with
    | Except.ok _ => Except.ok ()
    | Except.error _e => Except.ok ()

/-- `QbittorrentService.pause` / `QbittorrentService.resume` (app.py lines
171-177): `self.qbt_client.torrents.pause_all()` (resp. `resume_all()`) is
called with no `try/except`, so a client exception propagates to the
caller. -/
def QbittorrentService.act (action_call : Except String Unit) : Except String Unit :=
  action_call

/-- A registered download service together with the outcomes of the external
calls its pause (or resume) method would make this cycle. -/
inductive BackendCall : Type
  | sabnzbd (response : Except String Nat) : BackendCall
  | deluge (torrents_status : Except String (List String))
      (action_call : Except String Unit) : BackendCall
  | qbittorrent (action_call : Except String Unit) : BackendCall
deriving Repr

/-- Dispatch of `service.pause()` for each service kind; `service.resume()`
has the same error behaviour, so the same model covers both. -/
def BackendCall.run : BackendCall → Except String Unit
  | BackendCall.sabnzbd r => SABnzbdService.call_api r
  | BackendCall.deluge ts c => DelugeService.act ts c
  | BackendCall.qbittorrent c => QbittorrentService.act c

/-- Observable step of a `pause_downloads`/`resume_downloads` run, in
execution order: the notifier call (with whether it returned normally), then
one entry per download service whose pause/resume method was actually
invoked. -/
inductive FanoutEvent : Type
  | notify_call (ok : Bool) : FanoutEvent
  | backend_call (index : Nat) (ok : Bool) : FanoutEvent
deriving DecidableEq, Repr

/-- The `for service in self.download_services: service.pause()` loop of
`DownloadManager.pause_downloads` (app.py lines 333-334; the resume loop at
lines 343-344 is identical): services run in order, and an exception raised
by one service propagates out of the loop, so later services are not
invoked. Returns the events in order and the propagated exception, if any.
`index` numbers the services for the event log. -/
def DownloadManager.run_services (index : Nat) :
    List BackendCall → List FanoutEvent × Option String
  | [] => ([], none)
  | service :: rest =>
    match BackendCall.run service with
    | Except.ok _ =>
      let (events, raised) := DownloadManager.run_services (index + 1) rest
      (FanoutEvent.backend_call index true :: events, raised)
    | Except.error e => ([FanoutEvent.backend_call index false], some e)

/-- `DownloadManager.pause_downloads` (app.py lines 326-334): first
`self.notifier.send_message(...)` — whose exception propagates immediately,
before any service is touched — then the service loop. -/
def DownloadManager.pause_downloads (webhook_url : Option String)
    (post_response : Except String Nat) (services : List BackendCall) :
    List FanoutEvent × Option String :=
  match DiscordNotifier.send_message webhook_url post_response
      "Activity on Media Servers." "Pausing all download clients..." with
  | Except.error e => ([FanoutEvent.notify_call false], some e)
  | Except.ok _ =>
    let (events, raised) := DownloadManager.run_services 0 services
    (FanoutEvent.notify_call true :: events, raised)

/-- `DownloadManager.resume_downloads` (app.py lines 336-344): same shape as
`pause_downloads`, with the resume message and the services' resume calls. -/
def DownloadManager.resume_downloads (webhook_url : Option String)
    (post_response : Except String Nat) (services : List BackendCall) :
    List FanoutEvent × Option String :=
  match DiscordNotifier.send_message webhook_url post_response
      "No activity on Media Servers." "Resuming all download clients..." with
  | Except.error e => ([FanoutEvent.notify_call false], some e)
  | Except.ok _ =>
    let (events, raised) := DownloadManager.run_services 0 services
    (FanoutEvent.notify_call true :: events, raised)

/- ---------------- Controller loop ---------------- -/

/-- External-world inputs of one iteration of the `main` polling loop: the
outcome of each configured probe's query, the outcome of the Discord POST
(should a notification be attempted), and the outcomes of each configured
service's calls (should the fanout be attempted). -/
structure PollCycle : Type where
  probes : List ProbeOutcome
  post_response : Except String Nat
  services : List BackendCall

/-- `MediaServerManager.check_and_notify` (app.py lines 284-295) with its
effects: aggregate the probes, run the decision step, and on an edge run the
corresponding `DownloadManager` fanout. The stored flag is assigned before
the fanout call in the source, so the returned state is updated even when the
fanout raises. Returns (new stored flag, events, propagated exception). -/
def MediaServerManager.check_and_notify (has_already_activity : Bool)
    (webhook_url : Option String) (c : PollCycle) :
    Bool × List FanoutEvent × Option String :=
  let current := MediaServerManager.has_active_sessions ProbeOutcome.signal c.probes
  match check_and_notify_step has_already_activity current with
  | (s, some Intent.Pause) =>
    let (events, raised) := DownloadManager.pause_downloads webhook_url c.post_response c.services
    (s, events, raised)
  | (s, some Intent.Resume) =>
    let (events, raised) := DownloadManager.resume_downloads webhook_url c.post_response c.services
    (s, events, raised)
  | (s, none) => (s, [], none)

/-- The `while True` polling loop of `main` (app.py lines 355-359), run on a
finite list of cycle inputs: each tick calls `check_and_notify` once; the
loop body has no `try/except`, so an exception raised inside a cycle
propagates out of the loop and terminates it (and the process). Returns the
number of cycles completed without raising and the exception that terminated
the loop, if any. -/
def mainLoop (webhook_url : Option String) (state : Bool) :
    List PollCycle → Nat × Option String
  | [] => (0, none)
  | c :: rest =>
    let (s, _events, raised) := MediaServerManager.check_and_notify state webhook_url c
    match raised with
    | some e => (0, some e)
    | none =>
      let (n, terminated) := mainLoop webhook_url s rest
      (n + 1, terminated)

/- ---------------- Helper lemmas ---------------- -/

/-- In every run, the number of `Pause` intents equals the number of
Idle-to-Busy edges of the aggregated signal. -/
theorem countIntent_runArbiter_pause (state : Bool) (seq : List (List Bool)) :
    countIntent Intent.Pause (runArbiter state seq) =
      risingEdges state (seq.map (MediaServerManager.has_active_sessions id)) := by
  induction seq generalizing state with
  | nil => rfl
  | cons readings rest ih =>
    cases state <;> cases h : MediaServerManager.has_active_sessions id readings <;>
      simp [runArbiter, risingEdges, check_and_notify_step, h, countIntent, ih]

/-- In every run, the number of `Resume` intents equals the number of
Busy-to-Idle edges of the aggregated signal. -/
theorem countIntent_runArbiter_resume (state : Bool) (seq : List (List Bool)) :
    countIntent Intent.Resume (runArbiter state seq) =
      fallingEdges state (seq.map (MediaServerManager.has_active_sessions id)) := by
  induction seq generalizing state with
  | nil => rfl
  | cons readings rest ih =>
    cases state <;> cases h : MediaServerManager.has_active_sessions id readings <;>
      simp [runArbiter, fallingEdges, check_and_notify_step, h, countIntent, ih]

/-- The aggregation loop computes the boolean OR of the signals. -/
theorem has_active_sessions_eq_any (readings : List Bool) :
    MediaServerManager.has_active_sessions id readings = readings.any id := by
  induction readings with
  | nil => rfl
  | cons r rest ih =>
    cases r <;> simp [MediaServerManager.has_active_sessions, ih]

/-- When the aggregation loop returns `false`, every probe reported `false`. -/
theorem has_active_sessions_false_all (readings : List Bool)
    (h : MediaServerManager.has_active_sessions id readings = false) :
    ∀ r ∈ readings, r = false := by
  induction readings with
  | nil => intro r hr; cases hr
  | cons r rest ih =>
    intro x hx
    cases r with
    | true => simp [MediaServerManager.has_active_sessions] at h
    | false =>
      simp [MediaServerManager.has_active_sessions] at h
      rcases List.mem_cons.mp hx with hx | hx
      · exact hx
      · exact ih h x hx

/-- A `Resume` intent is only emitted when the current reading is `false`. -/
theorem step_resume_imp_current_false :
    ∀ prev current : Bool,
      (check_and_notify_step prev current).2 = some Intent.Resume → current = false := by
  decide

/- ---------------- Claim theorems ---------------- -/

/-- C1: for every sequence of per-probe boolean readings fed to the arbiter
started in its initial Idle state, the arbiter emits exactly one `Pause` per
Idle-to-Busy transition of the aggregated activity and exactly one `Resume`
per Busy-to-Idle transition, and the evaluation step emits no intent when the
current aggregate equals the previous evaluation's value. -/
theorem arbiter_edge_intents :
    (∀ seq : List (List Bool),
      countIntent Intent.Pause (runArbiter false seq) =
        risingEdges false (seq.map (MediaServerManager.has_active_sessions id)) ∧
      countIntent Intent.Resume (runArbiter false seq) =
        fallingEdges false (seq.map (MediaServerManager.has_active_sessions id))) ∧
    (∀ prev current : Bool, current = prev → (check_and_notify_step prev current).2 = none) :=
  ⟨fun seq => ⟨countIntent_runArbiter_pause false seq, countIntent_runArbiter_resume false seq⟩,
   by decide⟩

theorem arbiter_edge_intents_witness :
    (countIntent Intent.Pause (runArbiter false [[true], [true], [false]]) =
      risingEdges false ([[true], [true], [false]].map (MediaServerManager.has_active_sessions id)) ∧
     countIntent Intent.Resume (runArbiter false [[true], [true], [false]]) =
      fallingEdges false
        ([[true], [true], [false]].map (MediaServerManager.has_active_sessions id))) ∧
    (check_and_notify_step true true).2 = none :=
  ⟨arbiter_edge_intents.1 [[true], [true], [false]], arbiter_edge_intents.2 true true rfl⟩

/-- C2: one arbiter evaluation step behaves as the spec's transition table:
current true from Idle transitions to Busy and emits `Pause`; current false
from Busy transitions to Idle and emits `Resume`; the two remaining cases
leave the state unchanged and emit no intent. -/
theorem step_transition_table :
    check_and_notify_step false true = (true, some Intent.Pause) ∧
    check_and_notify_step true false = (false, some Intent.Resume) ∧
    check_and_notify_step false false = (false, none) ∧
    check_and_notify_step true true = (true, none) := by
  decide

/-- C7: the aggregated activity is the logical OR of all configured probes'
signals, and whenever the evaluation step emits a `Resume` on the aggregate
of a reading list, every probe in that list reported `false` — so one probe
going inactive while another is still active never produces a `Resume`. -/
theorem aggregate_or_resume_all_idle :
    (∀ readings : List Bool,
      MediaServerManager.has_active_sessions id readings = readings.any id) ∧
    (∀ (prev : Bool) (readings : List Bool),
      (check_and_notify_step prev
        (MediaServerManager.has_active_sessions id readings)).2 = some Intent.Resume →
      ∀ r ∈ readings, r = false) :=
  ⟨has_active_sessions_eq_any,
   fun prev readings h =>
     has_active_sessions_false_all readings
       (step_resume_imp_current_false prev _ h)⟩

theorem aggregate_or_resume_all_idle_witness :
    MediaServerManager.has_active_sessions id [true, false] = [true, false].any id ∧
    (∀ r ∈ [false, false], r = false) :=
  ⟨aggregate_or_resume_all_idle.1 [true, false],
   aggregate_or_resume_all_idle.2 true [false, false] rfl⟩

/-- C8: after every arbiter evaluation step, the stored previous-activity
flag equals the current aggregated reading that was just evaluated, whether
or not an intent was emitted. -/
theorem step_state_tracks_current :
    ∀ prev current : Bool, (check_and_notify_step prev current).1 = current := by
  decide

/-- C9: a freshly initialized arbiter stores `false` (Idle), and its very
first evaluation with current aggregated activity `true` emits a `Pause`
intent rather than suppressing the first reading. -/
theorem first_busy_reading_emits_pause :
    MediaServerManager.init_has_already_activity = false ∧
    (check_and_notify_step MediaServerManager.init_has_already_activity true).2 =
      some Intent.Pause := by
  decide

/-- C10: the aggregation loop short-circuits: on a probe list consisting of
an all-false front, then an active probe, then arbitrary probes behind it,
the loop returns `true` and queries exactly the front probes plus the first
active one — the probes behind the first active one are not queried in that
cycle. -/
theorem aggregator_short_circuits :
    ∀ front back : List Bool, (∀ r ∈ front, r = false) →
      MediaServerManager.has_active_sessions id (front ++ true :: back) = true ∧
      MediaServerManager.queried_count id (front ++ true :: back) = front.length + 1 := by
  intro front back
  induction front with
  | nil =>
    intro _
    exact ⟨rfl, rfl⟩
  | cons r rest ih =>
    intro h
    have hr : r = false := h r (List.mem_cons_self r rest)
    have hrest : ∀ x ∈ rest, x = false := fun x hx => h x (List.mem_cons_of_mem r hx)
    subst hr
    have := ih hrest
    simp [MediaServerManager.has_active_sessions, MediaServerManager.queried_count,
      this.1, this.2]

theorem aggregator_short_circuits_witness :
    MediaServerManager.has_active_sessions id ([false] ++ true :: [true]) = true ∧
    MediaServerManager.queried_count id ([false] ++ true :: [true]) = [false].length + 1 :=
  aggregator_short_circuits [false] [true] (by decide)

/-- C6: a probe whose query raises (network error, timeout, malformed
response caught as a `requests.RequestException`) contributes `false` for
that cycle instead of propagating the error, for each of the three server
kinds; and when every configured probe's query raises, the aggregate is
`false`. -/
theorem probe_error_defaults_false :
    (∀ e : String, JellyfinMediaServer.has_active_sessions (Except.error e) = false) ∧
    (∀ e : String, PlexMediaServer.has_active_sessions (Except.error e) = false) ∧
    (∀ e : String, EmbyMediaServer.has_active_sessions (Except.error e) = false) ∧
    (∀ probes : List ProbeOutcome, (∀ p ∈ probes, p.isError = true) →
      MediaServerManager.has_active_sessions ProbeOutcome.signal probes = false) := by
  refine ⟨fun _ => rfl, fun _ => rfl, fun _ => rfl, ?_⟩
  intro probes
  induction probes with
  | nil => intro _; rfl
  | cons p rest ih =>
    intro h
    have hp : p.isError = true := h p (List.mem_cons_self p rest)
    have hrest : ∀ x ∈ rest, x.isError = true := fun x hx => h x (List.mem_cons_of_mem p hx)
    have hsig : ProbeOutcome.signal p = false := by
      cases p with
      | jellyfin r => cases r with
        | ok s => simp [ProbeOutcome.isError] at hp
        | error e => rfl
      | plex r => cases r with
        | ok s => simp [ProbeOutcome.isError] at hp
        | error e => rfl
      | emby r => cases r with
        | ok s => simp [ProbeOutcome.isError] at hp
        | error e => rfl
    simp [MediaServerManager.has_active_sessions, hsig, ih hrest]

theorem probe_error_defaults_false_witness :
    JellyfinMediaServer.has_active_sessions (Except.error "timeout") = false ∧
    MediaServerManager.has_active_sessions ProbeOutcome.signal
      [ProbeOutcome.jellyfin (Except.error "timeout"),
       ProbeOutcome.plex (Except.error "timeout"),
       ProbeOutcome.emby (Except.error "timeout")] = false :=
  ⟨probe_error_defaults_false.1 "timeout",
   probe_error_defaults_false.2.2.2
     [ProbeOutcome.jellyfin (Except.error "timeout"),
      ProbeOutcome.plex (Except.error "timeout"),
      ProbeOutcome.emby (Except.error "timeout")]
     (by intro p hp; fin_cases hp <;> rfl)⟩

/-- C3 (claim refuted by the code): with the Discord webhook URL unset, one
SABnzbd service registered, and a `Pause` edge acted on, `pause_downloads`
raises `ValueError` inside `send_message` before the service loop starts: the
run's only event is the failed notifier call, no backend pause was attempted,
and the exception propagates — the notifier runs before, not after, the
fanout, and its configuration error does prevent the fanout from running. -/
theorem notifier_error_blocks_fanout :
    DownloadManager.pause_downloads none (Except.ok 204)
      [BackendCall.sabnzbd (Except.ok 200)] =
      ([FanoutEvent.notify_call false], some "Discord Webhook URL is not set.") := rfl

/-- C4 (claim refuted by the code): with a configured webhook, a failing
qBittorrent service first in the registry and a SABnzbd service after it,
`pause_downloads` propagates the qBittorrent client exception out of the
service loop: the events show the notifier call and the failed qBittorrent
call only — the remaining SABnzbd service's pause was never attempted. -/
theorem backend_error_short_circuits_fanout :
    DownloadManager.pause_downloads (some "https://discord.example/hook") (Except.ok 204)
      [BackendCall.qbittorrent (Except.error "connection refused"),
       BackendCall.sabnzbd (Except.ok 200)] =
      ([FanoutEvent.notify_call true, FanoutEvent.backend_call 0 false],
       some "connection refused") := rfl

/-- C5 (claim refuted by the code): the `while True` loop in `main` has no
exception handling, so a cycle whose fanout raises (here: first cycle sees an
active Jellyfin session while the webhook URL is unset) terminates the loop —
zero of the two scheduled cycles complete and the `ValueError` escapes,
instead of the loop proceeding to the next poll tick. -/
theorem cycle_error_terminates_loop :
    mainLoop none false
      [PollCycle.mk
         [ProbeOutcome.jellyfin (Except.ok [JellySession.mk true "alice" "s1"])]
         (Except.ok 204)
         [BackendCall.sabnzbd (Except.ok 200)],
       PollCycle.mk [] (Except.ok 204) [BackendCall.sabnzbd (Except.ok 200)]] =
      (0, some "Discord Webhook URL is not set.") := rfl
